import Mathlib

/-!
# Verification of the terminal screen-buffer core (`src/terminal/Screen.h`)

A shallow embedding of the data model and the operations defined in
`Screen.h` of the libterminal project: grid cells with combined Unicode
codepoints, graphics attributes, margins, cursor-coordinate translation
under DECOM (origin mode), buffer construction and reset, and cell
equality.  Operations declared in `Screen.h` but implemented in
`Screen.cpp` (which is not part of this tree) are modelled from the
specification and marked as such in their doc comments.

Machine integers: `cursor_pos_t` is `unsigned int` (32 bits); cell
fields `width_` and `codepointCount_` are `uint8_t`.  We embed them as
`Nat` with explicit reduction modulo `2^32` respectively `2^8` at every
operation where C++ would wrap.
-/

namespace Terminal

/-- Modulus of the 32-bit unsigned `cursor_pos_t`. -/
def U32 : Nat := 2 ^ 32

/-- Wrapping 32-bit addition, as for C++ `unsigned int`. -/
def wadd (a b : Nat) : Nat := (a + b) % U32

/-- Wrapping 32-bit subtraction, as for C++ `unsigned int`. -/
def wsub (a b : Nat) : Nat := (a + (U32 - b % U32)) % U32

/-- C++ `std::clamp(v, lo, hi)`: `lo` if `v < lo`, `hi` if `hi < v`, else `v`. -/
def uclamp (v lo hi : Nat) : Nat := if v < lo then lo else if hi < v then hi else v

/-- `Coordinate` from `Commands.h` (not in this tree); its fields are
`cursor_pos_t row; cursor_pos_t column` per the uses in `Screen.h`.
Modelled from the spec: all public coordinates are 1-based, so the
default (home) coordinate is `(1, 1)`. -/
structure Coordinate where
  row : Nat := 1
  column : Nat := 1
deriving DecidableEq, Repr

/-- `WindowSize` from `WindowSize.h` (not in this tree): rows and columns. -/
structure WindowSize where
  rows : Nat
  columns : Nat
deriving DecidableEq, Repr

/-- Modelled from the spec: `Color` from `Color.h` is not in this tree.
§3: a tagged variant `Default | Indexed | Bright | Palette | RGB`, with
structural equality. -/
inductive Color where
  | Default : Color
  | Indexed : Nat → Color
  | Bright : Nat → Color
  | Palette : Nat → Color
  | RGB : Nat → Nat → Nat → Color
deriving DecidableEq, Repr

/-- `CharacterStyleMask`: a 16-bit style bitmask, held in an `unsigned`
field; equality compares the raw mask. -/
structure CharacterStyleMask where
  mask : Nat := 0
deriving DecidableEq, Repr

/-- `ScreenBuffer::GraphicsAttributes`: foreground, background and
underline colors plus the style mask, all defaulted. -/
structure GraphicsAttributes where
  foregroundColor : Color := Color.Default
  backgroundColor : Color := Color.Default
  underlineColor : Color := Color.Default
  styles : CharacterStyleMask := {}
deriving DecidableEq, Repr

/-- `operator==(GraphicsAttributes, GraphicsAttributes)` (Screen.h:939):
field-wise comparison of background, foreground, styles and underline. -/
def attrEq (a b : GraphicsAttributes) : Bool :=
  decide (a.backgroundColor = b.backgroundColor)
    && decide (a.foregroundColor = b.foregroundColor)
    && decide (a.styles = b.styles)
    && decide (a.underlineColor = b.underlineColor)

/-- `HyperlinkRef` is a shared pointer to interned hyperlink data
(`Hyperlink.h`, not in this tree); for the claims at hand only identity
and nullness matter, so we model it as an optional identifier, `none`
being the null reference. -/
abbrev HyperlinkRef : Type := Option Nat

/-- `ScreenBuffer::Cell::MaxCodepoints = 9`. -/
def MaxCodepoints : Nat := 9

/-- `ScreenBuffer::Cell`: the backing array `codepoints_` of
`MaxCodepoints` slots, the graphics attributes, the `uint8_t` fields
`width_` and `codepointCount_`, and the hyperlink reference. -/
structure Cell where
  codepoints : List Nat := List.replicate MaxCodepoints 0
  attributes : GraphicsAttributes := {}
  width : Nat := 1
  codepointCount : Nat := 0
  hyperlink : HyperlinkRef := none
deriving DecidableEq, Repr

namespace Cell

/-- `Cell::codepoint(i)`: raw read of `codepoints_[i]`. -/
def codepoint (c : Cell) (i : Nat) : Nat := c.codepoints.getD i 0

/-- `Cell::reset(GraphicsAttributes, HyperlinkRef)` (Screen.h:201):
sets the attributes and hyperlink, zeroes the codepoint count and
resets the width to 1; the backing codepoint array is left as is. -/
def reset (c : Cell) (attribs : GraphicsAttributes) (hl : HyperlinkRef) : Cell :=
  { c with attributes := attribs, codepointCount := 0, width := 1, hyperlink := hl }

/-- `Cell::setCharacter` (Screen.h:229).  `uwidth` stands for the
external `unicode::width`.  The stored width is the `uint8_t`
truncation of the computed width.  The second component records whether
the `assert(width_ != 0)` in the nonzero-codepoint branch holds. -/
def setCharacter (uwidth : Nat → Nat) (cp : Nat) (c : Cell) : Cell × Bool :=
  let cps := c.codepoints.set 0 cp
  if cp ≠ 0 then
    let w := uwidth cp % 256
    ({ c with codepoints := cps, codepointCount := 1, width := w }, decide (w ≠ 0))
  else
    ({ c with codepoints := cps, codepointCount := 0, width := 1 }, true)

/-- `Cell::appendCharacter` (Screen.h:245).  If fewer than
`MaxCodepoints` codepoints are stored, the codepoint is written at
index `codepointCount_` and the count incremented; the width of the
appended codepoint is 2 for U+FE0F and `unicode::width` otherwise, and
if it exceeds the stored width the cell widens and the difference is
returned.  A full cell drops the codepoint and returns 1. -/
def appendCharacter (uwidth : Nat → Nat) (cp : Nat) (c : Cell) : Cell × Nat :=
  if c.codepointCount < MaxCodepoints then
    let cps := c.codepoints.set c.codepointCount cp
    let cnt := c.codepointCount + 1
    let w := if cp = 0xFE0F then 2 else uwidth cp
    if c.width < w then
      ({ c with codepoints := cps, codepointCount := cnt, width := w % 256 }, w - c.width)
    else
      ({ c with codepoints := cps, codepointCount := cnt }, 0)
  else
    (c, 1)

end Cell

/-- `operator==(ScreenBuffer::Cell, Screen::Cell)` (Screen.h:952):
equal codepoint counts, field-wise equal attributes, and equal
codepoints below the count; width and hyperlink are not compared. -/
def cellEq (a b : Cell) : Bool :=
  if a.codepointCount ≠ b.codepointCount then false
  else if !(attrEq a.attributes b.attributes) then false
  else (List.range a.codepointCount).all fun i => a.codepoint i == b.codepoint i

/-- `Margin::Range` (Screen.h:108): an inclusive `cursor_pos_t` range. -/
structure MarginRange where
  lo : Nat
  hi : Nat
deriving DecidableEq, Repr

/-- `Margin::Range::length()`: `to - from + 1` in `unsigned` arithmetic. -/
def MarginRange.length (r : MarginRange) : Nat := wadd (wsub r.hi r.lo) 1

/-- `Margin` (Screen.h:107): vertical (top-bottom) and horizontal
(left-right) ranges. -/
structure Margin where
  vertical : MarginRange
  horizontal : MarginRange
deriving DecidableEq, Repr

/-- `ScreenBuffer::Line` (Screen.h:291): a vector of cells plus the
`marked` flag. -/
structure Line where
  buffer : List Cell := []
  marked : Bool := false
deriving DecidableEq, Repr

/-- `Line(size_t _numCols, Cell const& _defaultCell)` (Screen.h:300):
a line of `_numCols` copies of the default cell. -/
def Line.init (numCols : Nat) (defaultCell : Cell) : Line :=
  { buffer := List.replicate numCols defaultCell }

/-- `ScreenBuffer::Cursor` (Screen.h:326): a `Coordinate` plus the
`visible` flag, which defaults to true. -/
structure Cursor where
  row : Nat := 1
  column : Nat := 1
  visible : Bool := true
deriving DecidableEq, Repr

/-- `ScreenBuffer::SavedState` (Screen.h:337): what DECSC captures. -/
structure SavedState where
  cursorPosition : Coordinate
  graphicsRendition : GraphicsAttributes := {}
  autowrap : Bool := false
  originMode : Bool := false
deriving DecidableEq, Repr

/-- `ScreenBuffer::Type` (Screen.h:128). -/
inductive BufferType where
  | Main : BufferType
  | Alternate : BufferType
deriving DecidableEq, Repr

/-- Modelled from the spec: `Mode` from `Commands.h` is not in this
tree.  §4.5: modes are stored as a set; these are the modes with
observable effects on the buffer. -/
inductive Mode where
  | AutoWrap : Mode
  | Origin : Mode
  | LeftRightMargin : Mode
  | Insert : Mode
  | VisibleCursor : Mode
  | UseAlternateScreen : Mode
deriving DecidableEq, Repr

/-- `ScreenBuffer` (Screen.h:126): the fields of the screen buffer.
The saved-state stack grows at the head (`std::stack` top first); the
derived iterator caches (`currentLine`, `currentColumn`, `lastColumn`)
are resolved from `cursor` and `lines` and carry no extra state. -/
structure ScreenBuffer where
  type : BufferType
  size : WindowSize
  maxHistoryLineCount : Option Nat
  margin : Margin
  enabledModes : List Mode := []
  cursor : Cursor := {}
  lines : List Line
  savedLines : List Line := []
  autoWrap : Bool := false
  wrapPending : Bool := false
  cursorRestrictedToMargin : Bool := false
  tabWidth : Nat := 8
  tabs : List Nat := []
  graphicsRendition : GraphicsAttributes := {}
  savedStates : List SavedState := []
  currentHyperlink : HyperlinkRef := none
deriving DecidableEq, Repr

namespace ScreenBuffer

/-- The `ScreenBuffer` constructor (Screen.h:347): full-screen margins
and `size.rows` lines of `size.columns` default cells; every other
field takes its declared default. -/
def init (t : BufferType) (size : WindowSize) (maxHistory : Option Nat) : ScreenBuffer :=
  { type := t
    size := size
    maxHistoryLineCount := maxHistory
    margin := { vertical := { lo := 1, hi := size.rows },
                horizontal := { lo := 1, hi := size.columns } }
    lines := List.replicate size.rows (Line.init size.columns {}) }

/-- `ScreenBuffer::reset` (Screen.h:360): reassigns a freshly
constructed buffer of the same type, size and history bound. -/
def reset (b : ScreenBuffer) : ScreenBuffer :=
  init b.type b.size b.maxHistoryLineCount

/-- `ScreenBuffer::realCursorPosition` (Screen.h:475). -/
def realCursorPosition (b : ScreenBuffer) : Coordinate :=
  { row := b.cursor.row, column := b.cursor.column }

/-- `ScreenBuffer::cursorPosition` (Screen.h:477): the real position,
or the margin-relative one when DECOM restricts the cursor. -/
def cursorPosition (b : ScreenBuffer) : Coordinate :=
  if !b.cursorRestrictedToMargin then
    b.realCursorPosition
  else
    { row := wadd (wsub b.cursor.row b.margin.vertical.lo) 1
      column := wadd (wsub b.cursor.column b.margin.horizontal.lo) 1 }

/-- `ScreenBuffer::toRealCoordinate` (Screen.h:504): identity when
DECOM is off, translation by the margin origin when on. -/
def toRealCoordinate (b : ScreenBuffer) (pos : Coordinate) : Coordinate :=
  if !b.cursorRestrictedToMargin then
    pos
  else
    { row := wsub (wadd pos.row b.margin.vertical.lo) 1
      column := wsub (wadd pos.column b.margin.horizontal.lo) 1 }

/-- `ScreenBuffer::clampToOrigin` (Screen.h:522): clamps each component
into `[0, margin length]`. -/
def clampToOrigin (b : ScreenBuffer) (coord : Coordinate) : Coordinate :=
  { row := uclamp coord.row 0 b.margin.vertical.length
    column := uclamp coord.column 0 b.margin.horizontal.length }

/-- `ScreenBuffer::clampToScreen` (Screen.h:530): clamps each component
into `[1, size]`. -/
def clampToScreen (b : ScreenBuffer) (coord : Coordinate) : Coordinate :=
  { row := uclamp coord.row 1 b.size.rows
    column := uclamp coord.column 1 b.size.columns }

/-- `ScreenBuffer::clampCoordinate` (Screen.h:513), exactly as written:
`clampToOrigin` when `cursorRestrictedToMargin` is false, otherwise
`clampToScreen`. -/
def clampCoordinate (b : ScreenBuffer) (coord : Coordinate) : Coordinate :=
  if !b.cursorRestrictedToMargin then
    b.clampToOrigin coord
  else
    b.clampToScreen coord

/-- Modelled from the spec: `ScreenBuffer::restoreState` is declared at
Screen.h:450 but defined in `Screen.cpp`, which is not in this tree.
Spec §4.6: restore pops the last save and reapplies it; if the stack is
empty, restore resets to home, default rendition, autowrap on, DECOM
off. -/
def restoreState (b : ScreenBuffer) : ScreenBuffer :=
  match b.savedStates with
  | [] =>
      { b with cursor := { b.cursor with row := 1, column := 1 }
               graphicsRendition := {}
               autoWrap := true
               cursorRestrictedToMargin := false }
  | s :: rest =>
      let b' := { b with cursorRestrictedToMargin := s.originMode
                         graphicsRendition := s.graphicsRendition
                         autoWrap := s.autowrap
                         savedStates := rest }
      let real := b'.toRealCoordinate s.cursorPosition
      { b' with cursor := { b'.cursor with row := real.row, column := real.column } }

/-- Modelled from the spec: the erase operations (`ClearScreen`,
`ClearToEndOfLine`, `EraseCharacters`, ...) are implemented in
`Screen.cpp`, which is not in this tree.  Spec §4.4: each erase
replaces every target cell by calling `Cell::reset` with an attribute
record carrying the buffer's current background color and with a null
hyperlink reference. -/
def eraseCell (b : ScreenBuffer) (c : Cell) : Cell :=
  c.reset { backgroundColor := b.graphicsRendition.backgroundColor } none

end ScreenBuffer

/-- A sample cell for concrete instantiations: one codepoint `A`,
width 1, no hyperlink, zeroed spare codepoint slots. -/
def sampleCellA : Cell :=
  { codepoints := [65, 0, 0, 0, 0, 0, 0, 0, 0], codepointCount := 1
    width := 1, hyperlink := none }

/-- A sample cell agreeing with `sampleCellA` on count, stored
codepoint and attributes, but with different width, hyperlink and
junk in the unused codepoint slots. -/
def sampleCellB : Cell :=
  { codepoints := [65, 9, 9, 9, 9, 9, 9, 9, 9], codepointCount := 1
    width := 2, hyperlink := some 0 }

/-! ## Arithmetic helper lemmas -/

/-- Translating by the margin origin and back is the identity on
32-bit values: the wrapping `+ from - 1` undoes the wrapping
`- from + 1`. -/
theorem wsub_wadd_cancel (r f : Nat) (hr : r < U32) :
    wsub (wadd (wadd (wsub r f) 1) f) 1 = r := by
  simp only [wadd, wsub, U32] at *
  omega

/-! ## Theorems for the claims -/

open ScreenBuffer

/-- C1: the claim says `clampCoordinate` clamps into the screen
`[1, rows] × [1, columns]` when origin mode is off.  On a fresh 3×4
main buffer (origin mode off, margins full-screen), the code maps the
coordinate `(0, 9)` to `(0, 4)`: it takes the `clampToOrigin` branch,
whose lower bound is 0, so the result's row is not at least 1. -/
theorem clampCoordinate_branch_swap_counterexample :
    (ScreenBuffer.init BufferType.Main ⟨3, 4⟩ none).cursorRestrictedToMargin = false
    ∧ (ScreenBuffer.init BufferType.Main ⟨3, 4⟩ none).clampCoordinate ⟨0, 9⟩ = ⟨0, 4⟩
    ∧ ¬(1 ≤ ((ScreenBuffer.init BufferType.Main ⟨3, 4⟩ none).clampCoordinate ⟨0, 9⟩).row) := by
  refine ⟨rfl, ?_, ?_⟩
  · rfl
  · decide

/-- C2: with an empty saved-state stack, `restoreState` (modelled from
the spec, the implementation being outside this tree) resets the buffer
to the home cursor position (1,1), default graphics rendition, autowrap
on, and origin mode off. -/
theorem restoreState_emptyStack (b : ScreenBuffer) (h : b.savedStates = []) :
    (b.restoreState).cursor.row = 1 ∧ (b.restoreState).cursor.column = 1
    ∧ (b.restoreState).graphicsRendition = {}
    ∧ (b.restoreState).autoWrap = true
    ∧ (b.restoreState).cursorRestrictedToMargin = false := by
  unfold ScreenBuffer.restoreState
  rw [h]
  exact ⟨rfl, rfl, rfl, rfl, rfl⟩

/-- Witness for C2 at a concrete buffer with a displaced cursor,
origin mode on and an empty stack. -/
theorem restoreState_emptyStack_witness :
    (let b : ScreenBuffer :=
      { ScreenBuffer.init BufferType.Main ⟨3, 4⟩ none with
          cursor := { row := 5, column := 6, visible := true }
          cursorRestrictedToMargin := true };
     (b.restoreState).cursor.row = 1 ∧ (b.restoreState).cursor.column = 1
     ∧ (b.restoreState).graphicsRendition = {}
     ∧ (b.restoreState).autoWrap = true
     ∧ (b.restoreState).cursorRestrictedToMargin = false) :=
  restoreState_emptyStack _ rfl

/-- C3: below the 9-codepoint limit, `appendCharacter` stores the
codepoint at the old count and increments the count; at the limit the
codepoint is dropped and the cell unchanged; the count never exceeds
the limit. -/
theorem appendCharacter_count_spec (uwidth : Nat → Nat) (cp : Nat) (c : Cell)
    (hlen : c.codepoints.length = MaxCodepoints) :
    (c.codepointCount < MaxCodepoints →
      ((c.appendCharacter uwidth cp).1.codepointCount = c.codepointCount + 1
       ∧ (c.appendCharacter uwidth cp).1.codepoint c.codepointCount = cp))
    ∧ (c.codepointCount = MaxCodepoints → (c.appendCharacter uwidth cp).1 = c)
    ∧ (c.codepointCount ≤ MaxCodepoints →
        (c.appendCharacter uwidth cp).1.codepointCount ≤ MaxCodepoints) := by
  refine ⟨?_, ?_, ?_⟩
  · intro hlt
    unfold Cell.appendCharacter
    rw [if_pos hlt]
    have hidx : c.codepointCount < (c.codepoints.set c.codepointCount cp).length := by
      rw [List.length_set, hlen]; exact hlt
    have hget : (c.codepoints.set c.codepointCount cp).getD c.codepointCount 0 = cp := by
      rw [List.getD_eq_getElem?_getD, List.getElem?_set_eq_of_lt _ (hlen ▸ hlt)]
      rfl
    by_cases hw : c.width < (if cp = 0xFE0F then 2 else uwidth cp)
    · rw [if_pos hw]
      exact ⟨rfl, hget⟩
    · rw [if_neg hw]
      exact ⟨rfl, hget⟩
  · intro heq
    unfold Cell.appendCharacter
    rw [if_neg (by omega)]
  · intro hle
    rcases Nat.lt_or_ge c.codepointCount MaxCodepoints with hlt | hge
    · unfold Cell.appendCharacter
      rw [if_pos hlt]
      by_cases hw : c.width < (if cp = 0xFE0F then 2 else uwidth cp)
      · rw [if_pos hw]; exact hlt
      · rw [if_neg hw]; exact hlt
    · unfold Cell.appendCharacter
      rw [if_neg (by omega)]
      exact hle

/-- Witness for C3: a cell holding one codepoint (within the limit)
and a cell at the 9-codepoint limit. -/
theorem appendCharacter_count_spec_witness :
    ((Cell.codepoints {}).length = MaxCodepoints
     ∧ ((Cell.codepointCount {}) < MaxCodepoints →
         (((Cell.appendCharacter (fun _ => 1) 65 {}).1.codepointCount = Cell.codepointCount {} + 1)
          ∧ (Cell.appendCharacter (fun _ => 1) 65 {}).1.codepoint (Cell.codepointCount {}) = 65)))
    := by
  refine ⟨by decide, ?_⟩
  exact (appendCharacter_count_spec (fun _ => 1) 65 {} (by decide)).1

/-- C4: on the grapheme write path, the width of an appended scalar is
2 for U+FE0F and `unicode::width` of the scalar otherwise: below the
codepoint limit, `appendCharacter` widens the cell to the maximum of
the old width and that value and returns the width increase. -/
theorem appendCharacter_width_FE0F (uwidth : Nat → Nat) (cp : Nat) (c : Cell)
    (hlt : c.codepointCount < MaxCodepoints) (hw2 : uwidth cp ≤ 2) :
    (c.appendCharacter uwidth cp).1.width
        = max c.width (if cp = 0xFE0F then 2 else uwidth cp)
    ∧ (c.appendCharacter uwidth cp).2
        = (if cp = 0xFE0F then 2 else uwidth cp) - c.width := by
  unfold Cell.appendCharacter
  rw [if_pos hlt]
  have hwle : (if cp = 0xFE0F then 2 else uwidth cp) ≤ 2 := by
    split
    · exact Nat.le_refl 2
    · exact hw2
  by_cases hw : c.width < (if cp = 0xFE0F then 2 else uwidth cp)
  · rw [if_pos hw]
    constructor
    · show (if cp = 0xFE0F then 2 else uwidth cp) % 256 = _
      rw [Nat.mod_eq_of_lt (by omega)]
      omega
    · rfl
  · rw [if_neg hw]
    constructor
    · show c.width = _
      omega
    · show 0 = _
      omega

/-- Witness for C4: appending U+FE0F (whose `unicode::width` is taken
to be 1 here) to a fresh width-1 cell widens it to 2 and reports a
width increase of 1. -/
theorem appendCharacter_width_FE0F_witness :
    ((Cell.codepointCount {}) < MaxCodepoints ∧ (fun _ => 1 : Nat → Nat) 0xFE0F ≤ 2)
    ∧ ((Cell.appendCharacter (fun _ => 1) 0xFE0F {}).1.width
          = max (Cell.width {}) (if (0xFE0F : Nat) = 0xFE0F then 2 else (fun _ => 1 : Nat → Nat) 0xFE0F)
       ∧ (Cell.appendCharacter (fun _ => 1) 0xFE0F {}).2
          = (if (0xFE0F : Nat) = 0xFE0F then 2 else (fun _ => 1 : Nat → Nat) 0xFE0F) - Cell.width {}) :=
  ⟨⟨by decide, by decide⟩,
   appendCharacter_width_FE0F (fun _ => 1) 0xFE0F {} (by decide) (by decide)⟩

/-- C5: an erase (modelled from the spec as `Cell::reset` with the
current background color and a null hyperlink) leaves the target cell
with no codepoints, width 1, the buffer's current background color in
its attributes, and no hyperlink. -/
theorem eraseCell_spec (b : ScreenBuffer) (c : Cell) :
    (b.eraseCell c).codepointCount = 0
    ∧ (b.eraseCell c).width = 1
    ∧ (b.eraseCell c).attributes.backgroundColor = b.graphicsRendition.backgroundColor
    ∧ (b.eraseCell c).hyperlink = none :=
  ⟨rfl, rfl, rfl, rfl⟩

/-- C6: a freshly constructed buffer, and a reset buffer, have exactly
`size.rows` lines of exactly `size.columns` cells each. -/
theorem grid_dimensions (t : BufferType) (s : WindowSize) (mh : Option Nat)
    (b : ScreenBuffer) :
    ((ScreenBuffer.init t s mh).lines.length = s.rows
     ∧ ((ScreenBuffer.init t s mh).lines.all fun l => l.buffer.length == s.columns) = true)
    ∧ ((b.reset).lines.length = b.size.rows
     ∧ ((b.reset).lines.all fun l => l.buffer.length == b.size.columns) = true) := by
  have key : ∀ (t' : BufferType) (s' : WindowSize) (mh' : Option Nat),
      (ScreenBuffer.init t' s' mh').lines.length = s'.rows
      ∧ ((ScreenBuffer.init t' s' mh').lines.all fun l => l.buffer.length == s'.columns) = true := by
    intro t' s' mh'
    constructor
    · simp [ScreenBuffer.init]
    · simp only [ScreenBuffer.init, Line.init, List.all_eq_true]
      intro l hl
      rw [List.eq_of_mem_replicate hl]
      simp
  exact ⟨key t s mh, key b.type b.size b.maxHistoryLineCount⟩

/-- C7: translating the logical cursor position back to real
coordinates yields the real cursor position, and with origin mode off
both `cursorPosition` and `toRealCoordinate` are the identity. -/
theorem cursor_translation_inverse (b : ScreenBuffer)
    (hr : b.cursor.row < U32) (hc : b.cursor.column < U32) :
    b.toRealCoordinate b.cursorPosition = b.realCursorPosition
    ∧ (b.cursorRestrictedToMargin = false →
        b.cursorPosition = b.realCursorPosition
        ∧ ∀ p, b.toRealCoordinate p = p) := by
  constructor
  · cases hm : b.cursorRestrictedToMargin with
    | false =>
        simp [ScreenBuffer.toRealCoordinate, ScreenBuffer.cursorPosition, hm]
    | true =>
        simp only [ScreenBuffer.toRealCoordinate, ScreenBuffer.cursorPosition,
          ScreenBuffer.realCursorPosition, hm, Bool.not_true, Bool.false_eq_true,
          if_false, Coordinate.mk.injEq]
        exact ⟨wsub_wadd_cancel _ _ hr, wsub_wadd_cancel _ _ hc⟩
  · intro hm
    refine ⟨?_, fun p => ?_⟩
    · simp [ScreenBuffer.cursorPosition, hm]
    · simp [ScreenBuffer.toRealCoordinate, hm]

/-- Witness for C7: a 20×10 buffer with origin mode on, vertical
margins 3..7 and the cursor at real position (5,5). -/
theorem cursor_translation_inverse_witness :
    (let b : ScreenBuffer :=
      { ScreenBuffer.init BufferType.Main ⟨20, 10⟩ none with
          cursorRestrictedToMargin := true
          margin := { vertical := { lo := 3, hi := 7 }, horizontal := { lo := 1, hi := 10 } }
          cursor := { row := 5, column := 5, visible := true } };
     b.toRealCoordinate b.cursorPosition = b.realCursorPosition
     ∧ (b.cursorRestrictedToMargin = false →
         b.cursorPosition = b.realCursorPosition
         ∧ ∀ p, b.toRealCoordinate p = p)) :=
  cursor_translation_inverse _ (by decide) (by decide)

/-- C8: `reset` keeps exactly the buffer's type, size and history
bound, and returns the other fields to their freshly-constructed
values: home cursor visible, full-screen margins, no modes, empty
scrollback and saved-state stack, default rendition, no hyperlink,
autoWrap and wrapPending off, origin mode off; indeed the reset buffer
is the freshly constructed one. -/
theorem reset_frame (b : ScreenBuffer) :
    (b.reset).type = b.type
    ∧ (b.reset).size = b.size
    ∧ (b.reset).maxHistoryLineCount = b.maxHistoryLineCount
    ∧ (b.reset).cursor = { row := 1, column := 1, visible := true }
    ∧ (b.reset).margin
        = { vertical := { lo := 1, hi := b.size.rows }
            horizontal := { lo := 1, hi := b.size.columns } }
    ∧ (b.reset).enabledModes = []
    ∧ (b.reset).savedLines = []
    ∧ (b.reset).savedStates = []
    ∧ (b.reset).graphicsRendition
        = { foregroundColor := Color.Default, backgroundColor := Color.Default
            underlineColor := Color.Default, styles := { mask := 0 } }
    ∧ (b.reset).currentHyperlink = none
    ∧ (b.reset).autoWrap = false
    ∧ (b.reset).wrapPending = false
    ∧ (b.reset).cursorRestrictedToMargin = false
    ∧ b.reset = ScreenBuffer.init b.type b.size b.maxHistoryLineCount :=
  ⟨rfl, rfl, rfl, rfl, rfl, rfl, rfl, rfl, rfl, rfl, rfl, rfl, rfl, rfl⟩

/-- C9: under the precondition that the codepoint is NUL or its
unicode width is at least 1 (widths being at most 2), the
`assert(width_ != 0)` in `setCharacter` holds. -/
theorem setCharacter_assert_holds (uwidth : Nat → Nat) (cp : Nat) (c : Cell)
    (hw2 : uwidth cp ≤ 2) (h : cp = 0 ∨ 1 ≤ uwidth cp) :
    (c.setCharacter uwidth cp).2 = true := by
  by_cases hz : cp = 0
  · subst hz
    simp [Cell.setCharacter]
  · rcases h with hz0 | hw1
    · exact absurd hz0 hz
    · simp only [Cell.setCharacter, if_pos hz]
      rw [decide_eq_true_eq]
      omega

/-- Witness for C9: the codepoint `A` with unicode width 2. -/
theorem setCharacter_assert_holds_witness :
    ((fun _ => 2 : Nat → Nat) 65 ≤ 2 ∧ ((65 : Nat) = 0 ∨ 1 ≤ (fun _ => 2 : Nat → Nat) 65))
    ∧ (Cell.setCharacter (fun _ => 2) 65 {}).2 = true :=
  ⟨⟨by decide, by decide⟩,
   setCharacter_assert_holds (fun _ => 2) 65 {} (by decide) (by decide)⟩

/-- C10: cells agreeing on codepoint count, stored codepoints below
the count, and field-wise attributes compare equal under `operator==`,
whatever their width and hyperlink fields hold. -/
theorem cellEq_ignores_width_hyperlink (a b : Cell)
    (hcount : a.codepointCount = b.codepointCount)
    (hattr : attrEq a.attributes b.attributes = true)
    (hcp : ∀ i, i < a.codepointCount → a.codepoint i = b.codepoint i) :
    cellEq a b = true := by
  unfold cellEq
  rw [if_neg (by simp [hcount])]
  rw [if_neg (by simp [hattr])]
  rw [List.all_eq_true]
  intro i hi
  rw [List.mem_range] at hi
  exact beq_iff_eq.mpr (hcp i hi)

/-- Witness for C10: `sampleCellA` and `sampleCellB` differ in width
(1 vs 2), hyperlink (null vs set) and unused codepoint slots, yet
compare equal. -/
theorem cellEq_ignores_width_hyperlink_witness :
    (sampleCellA.codepointCount = sampleCellB.codepointCount
     ∧ attrEq sampleCellA.attributes sampleCellB.attributes = true
     ∧ (∀ i, i < sampleCellA.codepointCount →
          sampleCellA.codepoint i = sampleCellB.codepoint i))
    ∧ (sampleCellA.width ≠ sampleCellB.width
       ∧ sampleCellA.hyperlink ≠ sampleCellB.hyperlink)
    ∧ cellEq sampleCellA sampleCellB = true :=
  ⟨⟨by decide, by decide, by decide⟩, ⟨by decide, by decide⟩,
   cellEq_ignores_width_hyperlink _ _ (by decide) (by decide) (by decide)⟩

end Terminal
